import Mathlib

/-!
Verification of pbprometheus: response interceptor, HTTP metrics middleware, samplers, setup

A shallow embedding of the Go package `pbprometheus`
(`http_metrics.go`, `config.go`, `record_count_metrics.go`,
`realtime_metrics.go`, `record_request_metrics.go`).

Modelling conventions.

* A Go `string` is a sequence of bytes, not necessarily valid UTF-8.  It is
  modelled by a Lean string holding one character per byte (the character
  with that byte as its code), so `"/items"` is the Go string `"/items"` and
  `"/\xff"` is the two-byte Go string `"/\xff"` that the request
  `GET /%ff` carries as its path.  Searching for `?` and slicing therefore
  work on bytes, as in Go.  `utf8ValidString` decides whether the bytes are
  valid UTF-8.  Go `int`/`int64` values are `Int` (no arithmetic is performed
  on them by the modelled code).
* The request is shared between the middleware and the handler: the handler
  may assign `r.Method` and `r.URL.Path`, and the middleware reads both
  after the handler has run.
* `WithLabelValues` of the Prometheus client panics when a label value is
  not valid UTF-8.  Collection names come from the host application, which
  only admits names made of ASCII letters, digits and `_`.
* A `[]byte` is a list of byte values.
* The underlying `http.ResponseWriter` is an external object.  It is modelled
  by the history of calls made on it together with the functions that choose
  the value each call returns from that history, so any deterministic writer
  is an instance.  Edits of the header map obtained through `Header()` go
  straight to the underlying writer (the interceptor only embeds that
  method) and are not part of the call history.
* A downstream handler is a tree of `WriteHeader` / `Write` calls and of
  assignments to the request, whose continuation may depend on what `Write`
  returned, ending in a normal return or in a Go panic.
* Clock readings and `float64` conversions are parameters.
-/

namespace pbprometheus

/-! ## Values shared by all components -/

/-- Go `error` values met on the modelled paths: `errors.New(msg)`,
`http.ErrNotSupported`, and any other error a collaborator may return. -/
inductive GoError where
  | errorsNew (msg : String)
  | ErrNotSupported
  | other (tag : Nat)
  deriving DecidableEq, Repr

/-- A Go byte slice. -/
abbrev Bytes := List Nat

/-- The fields of `http.PushOptions`. -/
structure PushOptions where
  Method : String
  Header : List (String × List String)
  deriving DecidableEq, Repr

/-- The triple returned by `Hijack`: connection handle, buffered
reader/writer handle, error; `none` is Go `nil`. -/
structure HijackResult where
  conn : Option Nat
  rw : Option Nat
  err : Option GoError
  deriving DecidableEq, Repr

/-- One method call received by the underlying writer. -/
inductive Call where
  | WriteHeader (code : Int)
  | Write (b : Bytes)
  | Flush
  | Hijack
  | Push (target : String) (opts : Option PushOptions)
  deriving DecidableEq, Repr

/-- The underlying `http.ResponseWriter`: the calls it has received so far,
what its `Write` returns, and which of the optional interfaces
`http.Flusher`, `http.Hijacker`, `http.Pusher` its dynamic type implements
(`none` / `false`: the type assertion fails). -/
structure HttpResponseWriter where
  calls : List Call
  writeResult : List Call → Bytes → Int × Option GoError
  isFlusher : Bool
  hijacker : Option (List Call → HijackResult)
  pusher : Option (List Call → String → Option PushOptions → Option GoError)

namespace HttpResponseWriter

/-- The call `w.WriteHeader(code)` on the underlying writer. -/
def WriteHeader (w : HttpResponseWriter) (code : Int) : HttpResponseWriter :=
  { w with calls := w.calls ++ [Call.WriteHeader code] }

/-- The call `w.Write(b)` on the underlying writer. -/
def Write (w : HttpResponseWriter) (b : Bytes) :
    HttpResponseWriter × (Int × Option GoError) :=
  ({ w with calls := w.calls ++ [Call.Write b] }, w.writeResult w.calls b)

end HttpResponseWriter

/-- Constant `http.StatusOK`. -/
def StatusOK : Int := 200

/-- Constant `http.StatusInternalServerError`. -/
def StatusInternalServerError : Int := 500

/-! ## `responseWriterInterceptor` (http_metrics.go, lines 19-85) -/

/-- The struct `responseWriterInterceptor`. -/
structure responseWriterInterceptor where
  ResponseWriter : HttpResponseWriter
  statusCode : Int
  wroteHeader : Bool

/-- Constructor `newResponseWriterInterceptor`: `wroteHeader` gets the zero
value `false`. -/
def newResponseWriterInterceptor (w : HttpResponseWriter) : responseWriterInterceptor :=
  { ResponseWriter := w, statusCode := StatusOK, wroteHeader := false }

namespace responseWriterInterceptor

/-- Method `WriteHeader`. -/
def WriteHeader (rwi : responseWriterInterceptor) (code : Int) : responseWriterInterceptor :=
  let rwi1 : responseWriterInterceptor :=
    if !rwi.wroteHeader then { rwi with statusCode := code, wroteHeader := true } else rwi
  { rwi1 with ResponseWriter := rwi1.ResponseWriter.WriteHeader code }

/-- Method `Write`: only forwards. -/
def Write (rwi : responseWriterInterceptor) (b : Bytes) :
    responseWriterInterceptor × (Int × Option GoError) :=
  let res := rwi.ResponseWriter.Write b
  ({ rwi with ResponseWriter := res.1 }, res.2)

/-- Method `Status`. -/
def Status (rwi : responseWriterInterceptor) : Int :=
  rwi.statusCode

/-- Method `Flush`. -/
def Flush (rwi : responseWriterInterceptor) : responseWriterInterceptor :=
  if rwi.ResponseWriter.isFlusher then
    { rwi with ResponseWriter :=
        { rwi.ResponseWriter with calls := rwi.ResponseWriter.calls ++ [Call.Flush] } }
  else rwi

/-- Method `Hijack`. -/
def Hijack (rwi : responseWriterInterceptor) : responseWriterInterceptor × HijackResult :=
  match rwi.ResponseWriter.hijacker with
  | some hijack =>
    ({ rwi with ResponseWriter :=
        { rwi.ResponseWriter with calls := rwi.ResponseWriter.calls ++ [Call.Hijack] } },
     hijack rwi.ResponseWriter.calls)
  | none =>
    (rwi, { conn := none, rw := none,
            err := some (GoError.errorsNew
              "http.Hijacker not supported by underlying ResponseWriter") })

/-- Method `Push`. -/
def Push (rwi : responseWriterInterceptor) (target : String) (opts : Option PushOptions) :
    responseWriterInterceptor × Option GoError :=
  match rwi.ResponseWriter.pusher with
  | some push =>
    ({ rwi with ResponseWriter :=
        { rwi.ResponseWriter with
            calls := rwi.ResponseWriter.calls ++ [Call.Push target opts] } },
     push rwi.ResponseWriter.calls target opts)
  | none => (rwi, some GoError.ErrNotSupported)

/-- A sequence of method calls made, in order, on the interceptor; the value
each call returns is dropped. -/
def runCalls : responseWriterInterceptor → List Call → responseWriterInterceptor
  | rwi, [] => rwi
  | rwi, Call.WriteHeader code :: cs => runCalls (rwi.WriteHeader code) cs
  | rwi, Call.Write b :: cs => runCalls (rwi.Write b).1 cs
  | rwi, Call.Flush :: cs => runCalls rwi.Flush cs
  | rwi, Call.Hijack :: cs => runCalls rwi.Hijack.1 cs
  | rwi, Call.Push target opts :: cs => runCalls (rwi.Push target opts).1 cs

end responseWriterInterceptor

/-- Whether a call is a `WriteHeader`. -/
def Call.isWriteHeader : Call → Bool
  | Call.WriteHeader _ => true
  | _ => false

/-- The code of the first `WriteHeader` in a sequence of calls, if any. -/
def firstWriteHeader : List Call → Option Int
  | [] => none
  | Call.WriteHeader code :: _ => some code
  | _ :: cs => firstWriteHeader cs

/-! ## Downstream handlers -/

/-- How a Go function call ends: it returns, or it panics with a value. -/
inductive Outcome where
  | returned
  | panicked (v : String)
  deriving DecidableEq, Repr

/-- The fields of `*http.Request` the middleware reads.  Both are Go strings
(one character per byte) and need not be valid UTF-8: the server does not
check the bytes of a decoded path, and a handler may assign either field. -/
structure Request where
  Method : String
  URLPath : String
  deriving DecidableEq, Repr

/-- A downstream `http.Handler`, as the calls it makes on the writer it is
given and the assignments `r.Method = m` and `r.URL.Path = p` it makes on the
request it is given.  `Write` hands its return value to the rest of the
handler. -/
inductive Handler where
  | ret
  | panics (v : String)
  | WriteHeader (code : Int) (k : Handler)
  | Write (b : Bytes) (k : Int × Option GoError → Handler)
  | SetMethod (m : String) (k : Handler)
  | SetURLPath (p : String) (k : Handler)

namespace Handler

/-- The call `next.ServeHTTP(w, r)` with the original writer `w`: the writer
and the request afterwards, and how the call ended. -/
def ServeHTTP : Handler → HttpResponseWriter → Request → HttpResponseWriter × Request × Outcome
  | ret, w, r => (w, r, Outcome.returned)
  | panics v, w, r => (w, r, Outcome.panicked v)
  | WriteHeader code k, w, r => ServeHTTP k (w.WriteHeader code) r
  | Write b k, w, r => ServeHTTP (k (w.Write b).2) (w.Write b).1 r
  | SetMethod m k, w, r => ServeHTTP k w { r with Method := m }
  | SetURLPath p k, w, r => ServeHTTP k w { r with URLPath := p }

/-- The call `next.ServeHTTP(interceptor, r)`: the interceptor and the request
afterwards, and how the call ended. -/
def ServeIntercepted :
    Handler → responseWriterInterceptor → Request → responseWriterInterceptor × Request × Outcome
  | ret, rwi, r => (rwi, r, Outcome.returned)
  | panics v, rwi, r => (rwi, r, Outcome.panicked v)
  | WriteHeader code k, rwi, r => ServeIntercepted k (rwi.WriteHeader code) r
  | Write b k, rwi, r => ServeIntercepted (k (rwi.Write b).2) (rwi.Write b).1 r
  | SetMethod m k, rwi, r => ServeIntercepted k rwi { r with Method := m }
  | SetURLPath p k, rwi, r => ServeIntercepted k rwi { r with URLPath := p }

end Handler

/-! ## Library functions used by the middleware -/

/-- Search of `strings.Index` from position `i` on: the position of the first
occurrence of `substr`, or `-1`. -/
def stringsIndexFrom (substr : List Char) : List Char → Nat → Int
  | [], i => if substr = [] then (i : Int) else -1
  | c :: cs, i =>
    if substr.isPrefixOf (c :: cs) then (i : Int) else stringsIndexFrom substr cs (i + 1)

/-- Library function `strings.Index(s, substr)`. -/
def stringsIndex (s substr : String) : Int :=
  stringsIndexFrom substr.data s.data 0

/-- Library function `strconv.Itoa`. -/
def strconvItoa (i : Int) : String :=
  toString i

/-- The conversion `[]byte(s)`: the bytes of a Go string. -/
def stringBytes (s : String) : Bytes :=
  s.data.map Char.toNat

/-- The scan of `utf8.ValidString` over the bytes that are left: `need` is the
number of continuation bytes the current character still lacks, and `lo`,
`hi` bound the next of them (the first continuation byte after `E0`, `ED`,
`F0`, `F4` has a narrower range than `80..BF`). -/
def utf8Scan : Nat → Nat → Nat → List Nat → Bool
  | need, _, _, [] => need == 0
  | 0, _, _, b :: bs =>
    if b < 128 then utf8Scan 0 128 191 bs
    else if 194 ≤ b ∧ b ≤ 223 then utf8Scan 1 128 191 bs
    else if b = 224 then utf8Scan 2 160 191 bs
    else if (225 ≤ b ∧ b ≤ 236) ∨ b = 238 ∨ b = 239 then utf8Scan 2 128 191 bs
    else if b = 237 then utf8Scan 2 128 159 bs
    else if b = 240 then utf8Scan 3 144 191 bs
    else if 241 ≤ b ∧ b ≤ 243 then utf8Scan 3 128 191 bs
    else if b = 244 then utf8Scan 3 128 143 bs
    else false
  | need + 1, lo, hi, b :: bs =>
    if lo ≤ b ∧ b ≤ hi then utf8Scan need 128 191 bs else false

/-- Library function `utf8.ValidString`. -/
def utf8ValidString (s : String) : Bool :=
  utf8Scan 0 128 191 (stringBytes s)

/-- The check `validateLabelValues` of the Prometheus client: every label
value is valid UTF-8 (the number of values is right at both call sites).
`WithLabelValues` panics when the check fails. -/
def validateLabelValues (lvs : List String) : Bool :=
  lvs.all utf8ValidString

/-- The value `WithLabelValues` panics with when `validateLabelValues` fails. -/
def labelValuePanic : String := "label value is not valid UTF-8"

/-- The value of `http.StatusText(http.StatusInternalServerError)`. -/
def StatusTextInternalServerError : String := "Internal Server Error"

/-- Library function `http.Error(w, error, code)` applied to the interceptor:
after its header-map edits it calls `w.WriteHeader(code)` and prints the
message and a newline with `w.Write`. -/
def httpError (w : responseWriterInterceptor) (error : String) (code : Int) :
    responseWriterInterceptor :=
  ((w.WriteHeader code).Write (stringBytes (error ++ "\n"))).1

/-! ## Configuration (config.go) -/

/-- The struct `PBPrometheusConfig`; `TimeBuckets = none` is the nil slice, and
the bucket bounds are the decimal values the source writes. -/
structure PBPrometheusConfig where
  MetricsPath : String
  DisableRecordRequestMetrics : Bool
  DisableRecordCountStats : Bool
  DisableGeneralHttpMetrics : Bool
  DisableRealtimeMetrics : Bool
  RecordCountCronSchedule : String
  Namespace : String
  TimeBuckets : Option (List ℚ)

/-- Method `SetDefaults`. -/
def PBPrometheusConfig.SetDefaults (config : PBPrometheusConfig) : PBPrometheusConfig :=
  let config := if config.MetricsPath = "" then { config with MetricsPath := "/metrics" } else config
  let config := if config.Namespace = "" then { config with Namespace := "pocketbase" } else config
  let config :=
    if config.RecordCountCronSchedule = "" then
      { config with RecordCountCronSchedule := "*/5 * * * *" }
    else config
  let config :=
    if config.TimeBuckets = none then
      { config with TimeBuckets := some [0.005, 0.01, 0.025, 0.05, 0.1, 0.25, 0.5, 1, 2.5, 5, 10] }
    else config
  config

/-! ## General HTTP middleware (http_metrics.go, lines 116-174) -/

/-- A record written through the application logger. -/
structure LogEntry where
  level : String
  msg : String
  attrs : List (String × String)
  deriving DecidableEq, Repr

/-- The observations received by the two metric vectors of
`SetupGeneralHttpMetrics` and the logger: one entry of `httpRequestsTotal` per
`Inc()` with its labels `(method, path, status_code)`, one entry of
`httpRequestDuration` per `Observe` with labels `(method, path)` and the
value observed. -/
structure HttpMetrics (δ : Type) where
  httpRequestsTotal : List (String × String × String)
  httpRequestDuration : List (String × String × δ)
  log : List LogEntry

/-- The path label computed by the deferred recorder from `r.URL.Path`
(http_metrics.go lines 153-160; the same statements stand at lines 72-79 of
the second copy of the file). -/
def requestPathLabel (requestPath : String) : String :=
  let queryIdx := stringsIndex requestPath "?"
  let requestPath : String :=
    if queryIdx ≠ -1 then ⟨requestPath.data.take queryIdx.toNat⟩ else requestPath
  if requestPath = "" then "/" else requestPath

/-- What one call of the middleware handler leaves behind: the underlying
writer, the metrics and log, and how the call ended for its caller. -/
structure Served (δ : Type) where
  w : HttpResponseWriter
  metrics : HttpMetrics δ
  outcome : Outcome

/-- The recover block of the deferred function (lines 128-148), run when
`next.ServeHTTP` panicked with `rec`; `r` is the request as the handler left
it. -/
def recoverBlock {δ : Type} (r : Request) (rec : String)
    (interceptor : responseWriterInterceptor) (m : HttpMetrics δ) :
    responseWriterInterceptor × HttpMetrics δ :=
  let m1 : HttpMetrics δ :=
    { m with log := m.log ++
        [{ level := "ERROR", msg := "PANIC in HTTP metrics middleware defer block",
           attrs := [("error", rec), ("method", r.Method), ("path", r.URLPath)] }] }
  let interceptor1 :=
    if !interceptor.wroteHeader then
      httpError interceptor StatusTextInternalServerError StatusInternalServerError
    else interceptor
  (interceptor1, m1)

/-- The recording part of the deferred function (lines 150-170), with the
metrics afterwards and how the deferred function ended; `r` is the request as
it stands when the deferred function runs and `elapsed` is
`time.Since(start).Seconds()`.  Each `WithLabelValues` panics on a label value
that is not valid UTF-8; the panic is raised after `recover()` has been
called, so it leaves the deferred function and nothing further is recorded. -/
def recordObservation {δ : Type} (r : Request) (elapsed : δ)
    (interceptor : responseWriterInterceptor) (m : HttpMetrics δ) : HttpMetrics δ × Outcome :=
  let status := interceptor.Status
  let method := r.Method
  let requestPath := requestPathLabel r.URLPath
  if !validateLabelValues [method, requestPath, strconvItoa status] then
    (m, Outcome.panicked labelValuePanic)
  else
    let m1 : HttpMetrics δ :=
      { m with
        httpRequestsTotal := m.httpRequestsTotal ++ [(method, requestPath, strconvItoa status)] }
    if !validateLabelValues [method, requestPath] then
      (m1, Outcome.panicked labelValuePanic)
    else
      ({ m1 with
         httpRequestDuration := m1.httpRequestDuration ++ [(method, requestPath, elapsed)] },
       Outcome.returned)

/-- The handler returned by `metricsStdMiddleware(next)`, called with writer
`w` and request `r`.  The comparison with the metrics path reads the request
as it arrives; the deferred function reads it as the handler left it. -/
def metricsStdMiddleware {δ : Type} (config : PBPrometheusConfig) (next : Handler)
    (elapsed : δ) (m : HttpMetrics δ) (w : HttpResponseWriter) (r : Request) : Served δ :=
  if r.URLPath = config.MetricsPath then
    let res := next.ServeHTTP w r
    { w := res.1, metrics := m, outcome := res.2.2 }
  else
    let interceptor := newResponseWriterInterceptor w
    let res := next.ServeIntercepted interceptor r
    let rec1 : responseWriterInterceptor × HttpMetrics δ :=
      match res.2.2 with
      | Outcome.panicked rec => recoverBlock res.2.1 rec res.1 m
      | Outcome.returned => (res.1, m)
    let obs := recordObservation res.2.1 elapsed rec1.1 rec1.2
    { w := rec1.1.ResponseWriter, metrics := obs.1, outcome := obs.2 }

/-! ## Periodic count sampler (record_count_metrics.go, lines 19-36) -/

/-- A collection as returned by `app.FindAllCollections()`; only `Name` is
read. -/
structure Collection where
  Name : String
  deriving DecidableEq, Repr

/-- The data layer as one tick sees it: the answer of
`app.FindAllCollections()` and, per collection name, the answer of
`app.CountRecords(name)`. -/
structure DataLayer where
  FindAllCollections : Except GoError (List Collection)
  CountRecords : String → Except GoError Int

/-- The gauge vector `recordStats`: the value last set for each `collection`
label, `none` when the label was never set.  `φ` is `float64`. -/
abbrev GaugeVec (φ : Type) := String → Option φ

/-- The call `recordStats.WithLabelValues(name).Set(v)`. -/
def GaugeVec.Set {φ : Type} (g : GaugeVec φ) (name : String) (v : φ) : GaugeVec φ :=
  fun c => if c = name then some v else g c

/-- The state a tick works on: the gauge vector and the log. -/
structure SamplerState (φ : Type) where
  recordStats : GaugeVec φ
  log : List LogEntry

/-- The body of the `for` loop of the cron callback, for one collection. -/
def sampleCollection {φ : Type} (float64 : Int → φ) (app : DataLayer)
    (st : SamplerState φ) (collection : Collection) : SamplerState φ :=
  match app.CountRecords collection.Name with
  | Except.error _ =>
    { st with log := st.log ++
        [{ level := "ERROR",
           msg := "Failed to get record count for collection " ++ collection.Name,
           attrs := [] }] }
  | Except.ok count =>
    { st with recordStats := st.recordStats.Set collection.Name (float64 count) }

/-- The cron callback registered by `SetupRecordCountStats`: one tick. -/
def recordCountTick {φ : Type} (float64 : Int → φ) (app : DataLayer)
    (st : SamplerState φ) : SamplerState φ :=
  match app.FindAllCollections with
  | Except.error _ =>
    { st with log := st.log ++
        [{ level := "ERROR",
           msg := " Failed to get collections for prometheus record stats",
           attrs := [] }] }
  | Except.ok collectionNames =>
    collectionNames.foldl (sampleCollection float64 app) st

/-! ## Realtime connection gauge (realtime_metrics.go, lines 18-29) -/

/-- How the delegated chain `e.Next()` ends: it returns an error value
(`none` is `nil`), or it panics. -/
inductive NextResult where
  | returned (err : Option GoError)
  | panicked (v : String)
  deriving DecidableEq, Repr

/-- The hook bound to `OnRealtimeConnectRequest`, acting on the value of the
gauge `realtimeConnectionsActive`: `Inc()`, then `e.Next()`, then `Dec()` and
`return nil`.  A panic of `e.Next()` leaves the function at that statement. -/
def realtimeConnectHook (eNext : NextResult) (realtimeConnectionsActive : Int) :
    Int × NextResult :=
  let g1 := realtimeConnectionsActive + 1
  match eNext with
  | NextResult.panicked v => (g1, NextResult.panicked v)
  | NextResult.returned _ => (g1 - 1, NextResult.returned none)

/-! ## Setup (config.go lines 45-90 and the `Setup...` functions) -/

/-- What has been registered with the Prometheus registry. -/
inductive Registered where
  | GoCollector
  | ProcessCollector
  | HistogramVec (Namespace Name : String) (Buckets : Option (List ℚ)) (labels : List String)
  | GaugeVec (Namespace Name : String) (labels : List String)
  | CounterVec (Namespace Name : String) (labels : List String)
  | Gauge (Namespace Name : String)
  deriving DecidableEq

/-- The namespace a registered metric carries. -/
def Registered.namespaceOf : Registered → Option String
  | Registered.HistogramVec ns _ _ _ => some ns
  | Registered.GaugeVec ns _ _ => some ns
  | Registered.CounterVec ns _ _ => some ns
  | Registered.Gauge ns _ => some ns
  | _ => none

/-- The name a registered metric carries. -/
def Registered.nameOf : Registered → Option String
  | Registered.HistogramVec _ n _ _ => some n
  | Registered.GaugeVec _ n _ => some n
  | Registered.CounterVec _ n _ => some n
  | Registered.Gauge _ n => some n
  | _ => none

/-- A hook function bound on the host application. -/
inductive HookBinding where
  | OnRecordsListRequest
  | OnRecordUpdateRequest
  | OnRecordCreateRequest
  | OnRecordDeleteRequest
  | OnServeGeneralHttpMiddleware (MetricsPath : String)
  | OnServeRealtimeConnect
  | OnServeMetricsRoute (metricsPath : String)
  deriving DecidableEq

/-- A job added to the scheduler with `app.Cron().MustAdd(jobId, cronExpr, fn)`. -/
structure CronJob where
  jobId : String
  cronExpr : String
  deriving DecidableEq, Repr

/-- The registry and the parts of the host application that setup writes to. -/
structure SetupState where
  reg : List Registered
  cron : List CronJob
  hooks : List HookBinding
  log : List String

/-- Function `SetupRecordRequestMetrics` (record_request_metrics.go). -/
def SetupRecordRequestMetrics (app : SetupState) (config : PBPrometheusConfig) : SetupState :=
  { app with
    reg := app.reg ++
      [Registered.HistogramVec config.Namespace "request_duration_seconds" config.TimeBuckets
        ["collection", "action"]]
    hooks := app.hooks ++
      [HookBinding.OnRecordsListRequest, HookBinding.OnRecordUpdateRequest,
       HookBinding.OnRecordCreateRequest, HookBinding.OnRecordDeleteRequest] }

/-- Function `SetupRecordCountStats` (record_count_metrics.go). -/
def SetupRecordCountStats (app : SetupState) (config : PBPrometheusConfig) : SetupState :=
  { app with
    reg := app.reg ++ [Registered.GaugeVec config.Namespace "record_count" ["collection"]]
    cron := app.cron ++ [{ jobId := "prometheus_record_stats", cronExpr := "* * * * *" }] }

/-- Function `SetupGeneralHttpMetrics` (http_metrics.go). -/
def SetupGeneralHttpMetrics (app : SetupState) (config : PBPrometheusConfig) : SetupState :=
  { app with
    reg := app.reg ++
      [Registered.CounterVec config.Namespace "http_requests_total"
        ["method", "path", "status_code"],
       Registered.HistogramVec config.Namespace "http_request_duration_seconds"
        config.TimeBuckets ["method", "path"]]
    hooks := app.hooks ++ [HookBinding.OnServeGeneralHttpMiddleware config.MetricsPath] }

/-- Function `SetupRealtimeConnectionMonitoring` (realtime_metrics.go). -/
def SetupRealtimeConnectionMonitoring (app : SetupState) (_config : PBPrometheusConfig) :
    SetupState :=
  { app with
    reg := app.reg ++ [Registered.Gauge "pocketbase" "realtime_connections_active"]
    hooks := app.hooks ++ [HookBinding.OnServeRealtimeConnect] }

/-- Function `Setup` (config.go).  The registry is created inside, so the
incoming `reg` is replaced by a fresh one. -/
def Setup (app : SetupState) (config : PBPrometheusConfig) : SetupState :=
  let config := config.SetDefaults
  let app : SetupState :=
    { app with reg := [Registered.GoCollector, Registered.ProcessCollector] }
  let app := if !config.DisableRecordRequestMetrics then SetupRecordRequestMetrics app config else app
  let app := if !config.DisableRecordCountStats then SetupRecordCountStats app config else app
  let app := if !config.DisableGeneralHttpMetrics then SetupGeneralHttpMetrics app config else app
  let app :=
    if !config.DisableRealtimeMetrics then SetupRealtimeConnectionMonitoring app config else app
  let metricsPath := config.MetricsPath
  let metricsPath := if metricsPath = "" then "/metrics" else metricsPath
  { app with
    hooks := app.hooks ++ [HookBinding.OnServeMetricsRoute metricsPath]
    log := app.log ++ ["Prometheus exporter setup complete."] }

/-- The host application before `Setup`: nothing registered or bound. -/
def SetupState.empty : SetupState :=
  { reg := [], cron := [], hooks := [], log := [] }

/-- The zero value of `PBPrometheusConfig`. -/
def PBPrometheusConfig.zero : PBPrometheusConfig :=
  { MetricsPath := "", DisableRecordRequestMetrics := false, DisableRecordCountStats := false,
    DisableGeneralHttpMetrics := false, DisableRealtimeMetrics := false,
    RecordCountCronSchedule := "", Namespace := "", TimeBuckets := none }

/-! ## Statements of the specification, in its own words -/

/-- The query-stripped path as the specification words it: the part of `p`
before its first `?` when there is one, `p` itself otherwise, and `/` when
that is empty. -/
def specPathLabel (p : String) : String :=
  let q : String := if '?' ∈ p.data then ⟨p.data.takeWhile (fun c => c != '?')⟩ else p
  if q = "" then "/" else q

/-- The status code sent to the client as the specification words it: the
code committed by whichever comes first among the calls received by the
writer, a `WriteHeader(code)` (that code) or a `Write` (implicit 200);
`none` when neither occurs. -/
def committedStatus : List Call → Option Int
  | [] => none
  | Call.WriteHeader code :: _ => some code
  | Call.Write _ :: _ => some 200
  | _ :: cs => committedStatus cs

/-! ## Concrete inputs used in the examples below -/

/-- A writer that has received no call, implements none of the optional
interfaces, and whose `Write` reports all bytes written. -/
def plainWriter : HttpResponseWriter :=
  { calls := [], writeResult := fun _ b => ((b.length : Int), none),
    isFlusher := false, hijacker := none, pusher := none }

/-- A writer that implements `http.Flusher`, `http.Hijacker` and
`http.Pusher`. -/
def fullWriter : HttpResponseWriter :=
  { calls := [], writeResult := fun _ b => ((b.length : Int), none),
    isFlusher := true,
    hijacker := some (fun _ => { conn := some 1, rw := some 2, err := none }),
    pusher := some (fun _ _ _ => some (GoError.other 7)) }

/-- No observation and no log record yet. -/
def noMetrics : HttpMetrics ℚ :=
  { httpRequestsTotal := [], httpRequestDuration := [], log := [] }

/-- The configuration `Setup` works with when given the zero value. -/
def defaultConfig : PBPrometheusConfig :=
  PBPrometheusConfig.zero.SetDefaults

/-! ## Lemmas -/

theorem runCalls_statusCode (cs : List Call) (rwi : responseWriterInterceptor) :
    (rwi.runCalls cs).statusCode =
      if rwi.wroteHeader then rwi.statusCode
      else (firstWriteHeader cs).getD rwi.statusCode := by
  induction cs generalizing rwi with
  | nil => simp [responseWriterInterceptor.runCalls, firstWriteHeader]
  | cons c cs ih =>
    cases c with
    | WriteHeader code =>
      rw [responseWriterInterceptor.runCalls, ih]
      cases h : rwi.wroteHeader <;>
        simp [responseWriterInterceptor.WriteHeader, firstWriteHeader, h]
    | Write b =>
      rw [responseWriterInterceptor.runCalls, ih]
      simp [responseWriterInterceptor.Write, firstWriteHeader]
    | Flush =>
      rw [responseWriterInterceptor.runCalls, ih]
      by_cases h : rwi.ResponseWriter.isFlusher <;>
        simp [responseWriterInterceptor.Flush, firstWriteHeader, h]
    | Hijack =>
      rw [responseWriterInterceptor.runCalls, ih]
      cases h : rwi.ResponseWriter.hijacker <;>
        simp [responseWriterInterceptor.Hijack, firstWriteHeader, h]
    | Push target opts =>
      rw [responseWriterInterceptor.runCalls, ih]
      cases h : rwi.ResponseWriter.pusher <;>
        simp [responseWriterInterceptor.Push, firstWriteHeader, h]

theorem runCalls_forwards_writeHeader (cs : List Call) (rwi : responseWriterInterceptor) :
    (rwi.runCalls cs).ResponseWriter.calls.filter Call.isWriteHeader =
      rwi.ResponseWriter.calls.filter Call.isWriteHeader ++ cs.filter Call.isWriteHeader := by
  induction cs generalizing rwi with
  | nil => simp [responseWriterInterceptor.runCalls]
  | cons c cs ih =>
    cases c with
    | WriteHeader code =>
      rw [responseWriterInterceptor.runCalls, ih]
      cases h : rwi.wroteHeader <;>
        simp [responseWriterInterceptor.WriteHeader, HttpResponseWriter.WriteHeader,
          Call.isWriteHeader, h]
    | Write b =>
      rw [responseWriterInterceptor.runCalls, ih]
      simp [responseWriterInterceptor.Write, HttpResponseWriter.Write, Call.isWriteHeader]
    | Flush =>
      rw [responseWriterInterceptor.runCalls, ih]
      by_cases h : rwi.ResponseWriter.isFlusher <;>
        simp [responseWriterInterceptor.Flush, Call.isWriteHeader, h]
    | Hijack =>
      rw [responseWriterInterceptor.runCalls, ih]
      cases h : rwi.ResponseWriter.hijacker <;>
        simp [responseWriterInterceptor.Hijack, Call.isWriteHeader, h]
    | Push target opts =>
      rw [responseWriterInterceptor.runCalls, ih]
      cases h : rwi.ResponseWriter.pusher <;>
        simp [responseWriterInterceptor.Push, Call.isWriteHeader, h]

/-! ## C1: the recorded status -/

/-- C1: on a fresh interceptor over any underlying writer, after any sequence
of calls `Status()` is the code of the first `WriteHeader` of the sequence, or
200 when the sequence has none; and the `WriteHeader` calls received by the
underlying writer are the ones it had received before followed by every
`WriteHeader(code)` of the sequence, in order and with the same codes. -/
theorem C1_status_is_first_write_header (w : HttpResponseWriter) (cs : List Call) :
    ((newResponseWriterInterceptor w).runCalls cs).Status = (firstWriteHeader cs).getD 200 ∧
    ((newResponseWriterInterceptor w).runCalls cs).ResponseWriter.calls.filter Call.isWriteHeader =
      w.calls.filter Call.isWriteHeader ++ cs.filter Call.isWriteHeader := by
  constructor
  · rw [responseWriterInterceptor.Status, runCalls_statusCode]
    simp [newResponseWriterInterceptor, StatusOK]
  · rw [runCalls_forwards_writeHeader]
    simp [newResponseWriterInterceptor]

/-! ## C4: the path label -/

theorem stringsIndexFrom_query (l : List Char) (i : Nat) :
    stringsIndexFrom ['?'] l i =
      if '?' ∈ l then ((i + (l.takeWhile (fun c => c != '?')).length : Nat) : Int) else -1 := by
  induction l generalizing i with
  | nil => simp [stringsIndexFrom]
  | cons c cs ih =>
    by_cases hc : c = '?'
    · subst hc
      simp [stringsIndexFrom, List.isPrefixOf]
    · have hc2 : ¬ ('?' = c) := fun h => hc h.symm
      simp only [stringsIndexFrom, List.isPrefixOf, ih]
      have hb : (c != '?') = true := by simp [hc]
      by_cases hm : '?' ∈ cs
      · simp [hc, hc2, hm, List.takeWhile_cons, hb]
        omega
      · simp [hc, hc2, hm]

theorem take_takeWhile_length (l : List Char) (f : Char → Bool) :
    l.take (l.takeWhile f).length = l.takeWhile f := by
  induction l with
  | nil => simp
  | cons c cs ih =>
    by_cases h : f c
    · simp [List.takeWhile, h, ih]
    · simp [List.takeWhile, h]

theorem query_not_mem_takeWhile (l : List Char) :
    '?' ∉ l.takeWhile (fun c => c != '?') := by
  intro h
  have := List.mem_takeWhile_imp h
  simp at this

theorem requestPathLabel_eq_spec (p : String) : requestPathLabel p = specPathLabel p := by
  unfold requestPathLabel specPathLabel stringsIndex
  have hq : ("?" : String).data = ['?'] := rfl
  rw [hq, stringsIndexFrom_query]
  by_cases hm : '?' ∈ p.data
  · have hne : ((p.data.takeWhile (fun c => c != '?')).length : Int) ≠ -1 := by
      omega
    simp [hm, hne, take_takeWhile_length]
  · simp [hm]

theorem rootIfEmpty_no_query (q : String) (h : '?' ∉ q.data) :
    '?' ∉ (if q = "" then "/" else q : String).data := by
  split
  · decide
  · exact h

theorem rootIfEmpty_ne_empty (q : String) : (if q = "" then "/" else q : String) ≠ "" := by
  split
  · decide
  · assumption

theorem specPathLabel_no_query (p : String) : '?' ∉ (specPathLabel p).data := by
  unfold specPathLabel
  apply rootIfEmpty_no_query
  by_cases hm : '?' ∈ p.data
  · rw [if_pos hm]
    exact query_not_mem_takeWhile p.data
  · rw [if_neg hm]
    exact hm

theorem specPathLabel_ne_empty (p : String) : specPathLabel p ≠ "" := by
  unfold specPathLabel
  exact rootIfEmpty_ne_empty _

/-- C4: for every request path `p` the recorded path label is the part of `p`
before its first `?` when `p` contains one and `p` itself otherwise, replaced
by `/` when that is empty; the label never contains `?` and is never empty;
`/items?x=1` gives `/items` and the empty path gives `/`. -/
theorem C4_path_label (p : String) :
    requestPathLabel p = specPathLabel p ∧
    '?' ∉ (requestPathLabel p).data ∧
    requestPathLabel p ≠ "" ∧
    requestPathLabel "/items?x=1" = "/items" ∧
    requestPathLabel "" = "/" := by
  refine ⟨requestPathLabel_eq_spec p, ?_, ?_, by decide, by decide⟩
  · rw [requestPathLabel_eq_spec]
    exact specPathLabel_no_query p
  · rw [requestPathLabel_eq_spec]
    exact specPathLabel_ne_empty p

/-! ## C6: optional capabilities -/

/-- C6: `Flush`, `Hijack` and `Push` on the interceptor.  When the underlying
writer implements the capability, the call reaches it (one more call in its
history), the value returned is the one the underlying writer returns, and
the recorded status is untouched.  When it does not, the interceptor, hence
the underlying writer and the recorded status, is unchanged: `Flush` just
returns, `Hijack` returns a nil connection, a nil buffer and a non-nil
error, and `Push` returns `http.ErrNotSupported`. -/
theorem C6_capability_forwarding (rwi : responseWriterInterceptor) (target : String)
    (opts : Option PushOptions) :
    (rwi.ResponseWriter.isFlusher = true →
      rwi.Flush.ResponseWriter.calls = rwi.ResponseWriter.calls ++ [Call.Flush] ∧
      rwi.Flush.Status = rwi.Status) ∧
    (rwi.ResponseWriter.isFlusher = false → rwi.Flush = rwi) ∧
    (∀ hijack, rwi.ResponseWriter.hijacker = some hijack →
      rwi.Hijack.2 = hijack rwi.ResponseWriter.calls ∧
      rwi.Hijack.1.ResponseWriter.calls = rwi.ResponseWriter.calls ++ [Call.Hijack] ∧
      rwi.Hijack.1.Status = rwi.Status) ∧
    (rwi.ResponseWriter.hijacker = none →
      rwi.Hijack.1 = rwi ∧ rwi.Hijack.2.conn = none ∧ rwi.Hijack.2.rw = none ∧
      rwi.Hijack.2.err ≠ none) ∧
    (∀ push, rwi.ResponseWriter.pusher = some push →
      (rwi.Push target opts).2 = push rwi.ResponseWriter.calls target opts ∧
      (rwi.Push target opts).1.ResponseWriter.calls =
        rwi.ResponseWriter.calls ++ [Call.Push target opts] ∧
      (rwi.Push target opts).1.Status = rwi.Status) ∧
    (rwi.ResponseWriter.pusher = none →
      rwi.Push target opts = (rwi, some GoError.ErrNotSupported)) := by
  refine ⟨?_, ?_, ?_, ?_, ?_, ?_⟩
  · intro h
    simp [responseWriterInterceptor.Flush, responseWriterInterceptor.Status, h]
  · intro h
    simp [responseWriterInterceptor.Flush, h]
  · intro hijack h
    simp [responseWriterInterceptor.Hijack, responseWriterInterceptor.Status, h]
  · intro h
    simp [responseWriterInterceptor.Hijack, h]
  · intro push h
    simp [responseWriterInterceptor.Push, responseWriterInterceptor.Status, h]
  · intro h
    simp [responseWriterInterceptor.Push, h]

/-- C6 at a writer with none of the capabilities and at a writer with all of
them. -/
theorem C6_capability_forwarding_witness :
    (plainWriter.isFlusher = false ∧
      (newResponseWriterInterceptor plainWriter).Flush = newResponseWriterInterceptor plainWriter) ∧
    ((newResponseWriterInterceptor plainWriter).Hijack.1 = newResponseWriterInterceptor plainWriter ∧
      (newResponseWriterInterceptor plainWriter).Hijack.2.conn = none ∧
      (newResponseWriterInterceptor plainWriter).Hijack.2.rw = none ∧
      (newResponseWriterInterceptor plainWriter).Hijack.2.err ≠ none) ∧
    ((newResponseWriterInterceptor plainWriter).Push "/style.css" none =
      (newResponseWriterInterceptor plainWriter, some GoError.ErrNotSupported)) ∧
    ((newResponseWriterInterceptor fullWriter).Flush.ResponseWriter.calls = [] ++ [Call.Flush] ∧
      (newResponseWriterInterceptor fullWriter).Flush.Status =
        (newResponseWriterInterceptor fullWriter).Status) ∧
    ((newResponseWriterInterceptor fullWriter).Hijack.2 =
      { conn := some 1, rw := some 2, err := none }) ∧
    ((newResponseWriterInterceptor fullWriter).Push "/style.css" none).2 =
      some (GoError.other 7) :=
  ⟨⟨rfl, (C6_capability_forwarding (newResponseWriterInterceptor plainWriter) "" none).2.1 rfl⟩,
   (C6_capability_forwarding (newResponseWriterInterceptor plainWriter) "" none).2.2.2.1 rfl,
   (C6_capability_forwarding (newResponseWriterInterceptor plainWriter) "/style.css"
      none).2.2.2.2.2 rfl,
   (C6_capability_forwarding (newResponseWriterInterceptor fullWriter) "" none).1 rfl,
   ((C6_capability_forwarding (newResponseWriterInterceptor fullWriter) "" none).2.2.1
      _ rfl).1,
   ((C6_capability_forwarding (newResponseWriterInterceptor fullWriter) "/style.css"
      none).2.2.2.2.1 _ rfl).1⟩

/-! ## C3: how many observations one request produces -/

theorem utf8Scan_ascii (l : List Nat) (h : ∀ b ∈ l, b < 128) (lo hi : Nat) :
    utf8Scan 0 lo hi l = true := by
  induction l generalizing lo hi with
  | nil => simp [utf8Scan]
  | cons b bs ih =>
    have hb : b < 128 := h b (List.mem_cons_self b bs)
    rw [utf8Scan, if_pos hb]
    exact ih (fun x hx => h x (List.mem_cons_of_mem b hx)) 128 191

theorem utf8ValidString_of_ascii (s : String) (h : ∀ c ∈ s.data, c.toNat < 128) :
    utf8ValidString s = true := by
  unfold utf8ValidString stringBytes
  apply utf8Scan_ascii
  intro b hb
  obtain ⟨c, hc, rfl⟩ := List.mem_map.mp hb
  exact h c hc

theorem ite_char_ascii (P : Prop) [Decidable P] (a b : Char) (ha : a.toNat < 128)
    (hb : b.toNat < 128) : (if P then a else b).toNat < 128 := by
  split <;> assumption

theorem digitChar_ascii (n : Nat) : (Nat.digitChar n).toNat < 128 := by
  unfold Nat.digitChar
  iterate 16 refine ite_char_ascii _ _ _ (by decide) ?_
  decide

theorem toDigitsCore_ascii (fuel n : Nat) (ds : List Char) (h : ∀ c ∈ ds, c.toNat < 128) :
    ∀ c ∈ Nat.toDigitsCore 10 fuel n ds, c.toNat < 128 := by
  induction fuel generalizing n ds with
  | zero => simpa [Nat.toDigitsCore] using h
  | succ fuel ih =>
    have hds : ∀ c ∈ Nat.digitChar (n % 10) :: ds, c.toNat < 128 := by
      intro c hc
      rcases List.mem_cons.mp hc with rfl | hc
      · exact digitChar_ascii _
      · exact h c hc
    unfold Nat.toDigitsCore
    by_cases h0 : n / 10 = 0
    · simpa [h0] using hds
    · simp only [h0, if_false]
      exact ih (n / 10) _ hds

theorem natRepr_ascii (n : Nat) : ∀ c ∈ (Nat.repr n).data, c.toNat < 128 := by
  unfold Nat.repr Nat.toDigits
  simpa [List.asString] using toDigitsCore_ascii (n + 1) n [] (by simp)

theorem strconvItoa_valid (i : Int) : utf8ValidString (strconvItoa i) = true := by
  apply utf8ValidString_of_ascii
  unfold strconvItoa
  cases i with
  | ofNat m => exact natRepr_ascii m
  | negSucc m =>
    intro c hc
    have : c ∈ ("-" ++ Nat.repr (Nat.succ m)).data := hc
    rw [String.data_append] at this
    rcases List.mem_append.mp this with h | h
    · have : c = '-' := by simpa using h
      subst this; decide
    · exact natRepr_ascii _ c h

theorem recordObservation_of_valid {δ : Type} (r : Request) (elapsed : δ)
    (interceptor : responseWriterInterceptor) (m : HttpMetrics δ)
    (hm : utf8ValidString r.Method = true)
    (hp : utf8ValidString (requestPathLabel r.URLPath) = true) :
    recordObservation r elapsed interceptor m =
      ({ m with
         httpRequestsTotal := m.httpRequestsTotal ++
           [(r.Method, requestPathLabel r.URLPath, strconvItoa interceptor.Status)]
         httpRequestDuration := m.httpRequestDuration ++
           [(r.Method, requestPathLabel r.URLPath, elapsed)] },
       Outcome.returned) := by
  simp [recordObservation, validateLabelValues, hm, hp, strconvItoa_valid]

theorem recordObservation_of_invalid {δ : Type} (r : Request) (elapsed : δ)
    (interceptor : responseWriterInterceptor) (m : HttpMetrics δ)
    (h : utf8ValidString r.Method = false ∨
      utf8ValidString (requestPathLabel r.URLPath) = false) :
    recordObservation r elapsed interceptor m = (m, Outcome.panicked labelValuePanic) := by
  rcases h with h | h <;> simp [recordObservation, validateLabelValues, h]

/-- C3, as the claim states it, fails: the request `GET /%ff` has the path
`/\xff`, which is not the metrics path, and a handler that answers 200 and
returns.  `WithLabelValues` panics on the path label, so the counter and the
histogram receive nothing and the panic leaves the middleware. -/
theorem C3_no_observation_on_invalid_utf8_path :
    ("/\xff" : String) ≠ defaultConfig.MetricsPath ∧
    (metricsStdMiddleware defaultConfig (Handler.WriteHeader 200 Handler.ret) (0 : ℚ) noMetrics
      plainWriter { Method := "GET", URLPath := "/\xff" }).metrics.httpRequestsTotal = [] ∧
    (metricsStdMiddleware defaultConfig (Handler.WriteHeader 200 Handler.ret) (0 : ℚ) noMetrics
      plainWriter { Method := "GET", URLPath := "/\xff" }).metrics.httpRequestDuration = [] ∧
    (metricsStdMiddleware defaultConfig (Handler.WriteHeader 200 Handler.ret) (0 : ℚ) noMetrics
      plainWriter { Method := "GET", URLPath := "/\xff" }).outcome =
      Outcome.panicked labelValuePanic := by
  refine ⟨by decide, by decide, by decide, by decide⟩

/-- C3, amended: a request whose path is the configured metrics path is served
by the next handler on the original writer, with the handler's own outcome,
and the counter and the histogram receive nothing.  For any other request,
when the method and the path label of the request as the next handler left it
are valid UTF-8, exactly one entry is added to `http_requests_total` and
exactly one to `http_request_duration_seconds`, carrying that method and that
path label, for every next handler, returning or panicking. -/
theorem C3_one_observation_per_request {δ : Type} (config : PBPrometheusConfig)
    (next : Handler) (elapsed : δ) (m : HttpMetrics δ) (w : HttpResponseWriter) (r : Request) :
    (r.URLPath = config.MetricsPath →
      (metricsStdMiddleware config next elapsed m w r).w = (next.ServeHTTP w r).1 ∧
      (metricsStdMiddleware config next elapsed m w r).outcome = (next.ServeHTTP w r).2.2 ∧
      (metricsStdMiddleware config next elapsed m w r).metrics.httpRequestsTotal =
        m.httpRequestsTotal ∧
      (metricsStdMiddleware config next elapsed m w r).metrics.httpRequestDuration =
        m.httpRequestDuration) ∧
    (r.URLPath ≠ config.MetricsPath →
      utf8ValidString
        (next.ServeIntercepted (newResponseWriterInterceptor w) r).2.1.Method = true →
      utf8ValidString (requestPathLabel
        (next.ServeIntercepted (newResponseWriterInterceptor w) r).2.1.URLPath) = true →
      (∃ status : String,
        (metricsStdMiddleware config next elapsed m w r).metrics.httpRequestsTotal =
          m.httpRequestsTotal ++
            [((next.ServeIntercepted (newResponseWriterInterceptor w) r).2.1.Method,
              requestPathLabel
                (next.ServeIntercepted (newResponseWriterInterceptor w) r).2.1.URLPath,
              status)]) ∧
      (metricsStdMiddleware config next elapsed m w r).metrics.httpRequestDuration =
        m.httpRequestDuration ++
          [((next.ServeIntercepted (newResponseWriterInterceptor w) r).2.1.Method,
            requestPathLabel
              (next.ServeIntercepted (newResponseWriterInterceptor w) r).2.1.URLPath,
            elapsed)]) := by
  constructor
  · intro h
    simp [metricsStdMiddleware, h]
  · intro h hm hp
    simp only [metricsStdMiddleware, if_neg h, recordObservation_of_valid _ _ _ _ hm hp]
    cases (next.ServeIntercepted (newResponseWriterInterceptor w) r).2.2 with
    | returned => exact ⟨⟨_, rfl⟩, rfl⟩
    | panicked v => exact ⟨⟨_, rfl⟩, rfl⟩

/-- C3 (amended) at the metrics path with a handler that answers 200, and at
`/items` with a handler that assigns the path `/moved?x=1` to the request and
then panics. -/
theorem C3_one_observation_per_request_witness :
    (("/metrics" : String) = defaultConfig.MetricsPath ∧
      (metricsStdMiddleware defaultConfig (Handler.WriteHeader 200 Handler.ret) (0 : ℚ) noMetrics
        plainWriter { Method := "GET", URLPath := "/metrics" }).metrics.httpRequestsTotal = [] ∧
      (metricsStdMiddleware defaultConfig (Handler.WriteHeader 200 Handler.ret) (0 : ℚ) noMetrics
        plainWriter { Method := "GET", URLPath := "/metrics" }).metrics.httpRequestDuration = []) ∧
    (("/items" : String) ≠ defaultConfig.MetricsPath ∧
      utf8ValidString "GET" = true ∧
      utf8ValidString (requestPathLabel "/moved?x=1") = true ∧
      (metricsStdMiddleware defaultConfig
        (Handler.SetURLPath "/moved?x=1" (Handler.panics "boom")) (3 : ℚ) noMetrics
        plainWriter { Method := "GET", URLPath := "/items" }).metrics.httpRequestDuration =
        [] ++ [("GET", requestPathLabel "/moved?x=1", 3)]) :=
  ⟨⟨by decide,
    ((C3_one_observation_per_request defaultConfig (Handler.WriteHeader 200 Handler.ret) (0 : ℚ)
      noMetrics plainWriter { Method := "GET", URLPath := "/metrics" }).1 (by decide)).2.2.1,
    ((C3_one_observation_per_request defaultConfig (Handler.WriteHeader 200 Handler.ret) (0 : ℚ)
      noMetrics plainWriter { Method := "GET", URLPath := "/metrics" }).1 (by decide)).2.2.2⟩,
   ⟨by decide, by decide, by decide,
    ((C3_one_observation_per_request defaultConfig
      (Handler.SetURLPath "/moved?x=1" (Handler.panics "boom")) (3 : ℚ)
      noMetrics plainWriter { Method := "GET", URLPath := "/items" }).2
        (by decide) (by decide) (by decide)).2⟩⟩

/-! ## C8: one tick of the count sampler -/

theorem sampleCollection_recordStats {φ : Type} (float64 : Int → φ) (app : DataLayer)
    (st : SamplerState φ) (collection : Collection) (c : String) :
    (sampleCollection float64 app st collection).recordStats c =
      if c = collection.Name then
        match app.CountRecords c with
        | Except.ok n => some (float64 n)
        | Except.error _ => st.recordStats c
      else st.recordStats c := by
  unfold sampleCollection
  by_cases hc : c = collection.Name
  · subst hc
    cases app.CountRecords collection.Name <;> simp [GaugeVec.Set]
  · cases app.CountRecords collection.Name <;> simp [GaugeVec.Set, hc]

theorem foldl_sampleCollection_recordStats {φ : Type} (float64 : Int → φ) (app : DataLayer)
    (collectionNames : List Collection) (st : SamplerState φ) (c : String) :
    (collectionNames.foldl (sampleCollection float64 app) st).recordStats c =
      if c ∈ collectionNames.map Collection.Name then
        match app.CountRecords c with
        | Except.ok n => some (float64 n)
        | Except.error _ => st.recordStats c
      else st.recordStats c := by
  induction collectionNames generalizing st with
  | nil => simp
  | cons col cols ih =>
    rw [List.foldl_cons, ih, sampleCollection_recordStats]
    by_cases h1 : c = col.Name <;> by_cases h2 : c ∈ cols.map Collection.Name <;>
      cases app.CountRecords c <;> simp [h1, h2]

/-- C8: after one tick the `record_count` gauge of collection `c` holds the
count returned for `c` (converted with `float64`) when the enumeration
succeeded, `c` was enumerated and its count query succeeded; in every other
case it holds what it held before the tick, absent if it was never set. -/
theorem C8_tick_gauge {φ : Type} (float64 : Int → φ) (app : DataLayer)
    (st : SamplerState φ) (c : String) :
    (recordCountTick float64 app st).recordStats c =
      match app.FindAllCollections with
      | Except.error _ => st.recordStats c
      | Except.ok collectionNames =>
        if c ∈ collectionNames.map Collection.Name then
          match app.CountRecords c with
          | Except.ok n => some (float64 n)
          | Except.error _ => st.recordStats c
        else st.recordStats c := by
  unfold recordCountTick
  cases app.FindAllCollections with
  | error e => rfl
  | ok collectionNames => exact foldl_sampleCollection_recordStats float64 app collectionNames st c

/-! ## Facts about the recover block and the realtime hook that hold on the code -/

theorem middleware_returns_off_metrics_path {δ : Type} (config : PBPrometheusConfig)
    (next : Handler) (elapsed : δ) (m : HttpMetrics δ) (w : HttpResponseWriter) (r : Request)
    (h : r.URLPath ≠ config.MetricsPath)
    (hm : utf8ValidString
      (next.ServeIntercepted (newResponseWriterInterceptor w) r).2.1.Method = true)
    (hp : utf8ValidString (requestPathLabel
      (next.ServeIntercepted (newResponseWriterInterceptor w) r).2.1.URLPath) = true) :
    (metricsStdMiddleware config next elapsed m w r).outcome = Outcome.returned := by
  simp [metricsStdMiddleware, h, recordObservation_of_valid _ _ _ _ hm hp]

theorem middleware_panics_on_invalid_label {δ : Type} (config : PBPrometheusConfig)
    (next : Handler) (elapsed : δ) (m : HttpMetrics δ) (w : HttpResponseWriter) (r : Request)
    (h : r.URLPath ≠ config.MetricsPath)
    (hbad : utf8ValidString
        (next.ServeIntercepted (newResponseWriterInterceptor w) r).2.1.Method = false ∨
      utf8ValidString (requestPathLabel
        (next.ServeIntercepted (newResponseWriterInterceptor w) r).2.1.URLPath) = false) :
    (metricsStdMiddleware config next elapsed m w r).outcome =
        Outcome.panicked labelValuePanic ∧
    (metricsStdMiddleware config next elapsed m w r).metrics.httpRequestsTotal =
        m.httpRequestsTotal ∧
    (metricsStdMiddleware config next elapsed m w r).metrics.httpRequestDuration =
        m.httpRequestDuration := by
  simp only [metricsStdMiddleware, if_neg h, recordObservation_of_invalid _ _ _ _ hbad]
  cases (next.ServeIntercepted (newResponseWriterInterceptor w) r).2.2 <;> simp [recoverBlock]

theorem panic_before_any_write_sends_500 {δ : Type} (config : PBPrometheusConfig) (v : String)
    (elapsed : δ) (m : HttpMetrics δ) (w : HttpResponseWriter) (r : Request)
    (h : r.URLPath ≠ config.MetricsPath)
    (hm : utf8ValidString r.Method = true)
    (hp : utf8ValidString (requestPathLabel r.URLPath) = true) :
    (metricsStdMiddleware config (Handler.panics v) elapsed m w r).w.calls =
      w.calls ++ [Call.WriteHeader 500, Call.Write (stringBytes "Internal Server Error\n")] ∧
    (metricsStdMiddleware config (Handler.panics v) elapsed m w r).metrics.httpRequestsTotal =
      m.httpRequestsTotal ++ [(r.Method, requestPathLabel r.URLPath, "500")] := by
  have h500 : strconvItoa 500 = "500" := by decide
  simp [metricsStdMiddleware, h, Handler.ServeIntercepted, recoverBlock,
    recordObservation_of_valid _ _ _ _ hm hp,
    newResponseWriterInterceptor, httpError, responseWriterInterceptor.WriteHeader,
    responseWriterInterceptor.Write, responseWriterInterceptor.Status,
    HttpResponseWriter.WriteHeader, HttpResponseWriter.Write, StatusInternalServerError,
    StatusTextInternalServerError, h500]

theorem no_call_after_panic_once_header_written {δ : Type} (config : PBPrometheusConfig)
    (next : Handler) (elapsed : δ) (m : HttpMetrics δ) (w : HttpResponseWriter) (r : Request)
    (v : String) (h : r.URLPath ≠ config.MetricsPath)
    (hp : (next.ServeIntercepted (newResponseWriterInterceptor w) r).2.2 = Outcome.panicked v)
    (hw : (next.ServeIntercepted (newResponseWriterInterceptor w) r).1.wroteHeader = true) :
    (metricsStdMiddleware config next elapsed m w r).w =
      (next.ServeIntercepted (newResponseWriterInterceptor w) r).1.ResponseWriter := by
  simp [metricsStdMiddleware, h, hp, recoverBlock, hw]

theorem realtimeConnectHook_returned (err : Option GoError) (g : Int) :
    realtimeConnectHook (NextResult.returned err) g = (g, NextResult.returned none) := by
  simp [realtimeConnectHook]

/-! ## Evaluations of the code at the inputs where it departs from the claims -/

/-- C2: a handler that writes body bytes and then calls `WriteHeader(404)`.
The underlying writer receives the `Write` first, so the response is committed
with the implicit 200, while the counter is incremented with
`status_code = "404"`. -/
theorem C2_label_after_write_then_write_header :
    (metricsStdMiddleware defaultConfig
        (Handler.Write [104, 105] (fun _ => Handler.WriteHeader 404 Handler.ret)) (0 : ℚ)
        noMetrics plainWriter { Method := "GET", URLPath := "/items" }).metrics.httpRequestsTotal =
      [("GET", "/items", "404")] ∧
    (metricsStdMiddleware defaultConfig
        (Handler.Write [104, 105] (fun _ => Handler.WriteHeader 404 Handler.ret)) (0 : ℚ)
        noMetrics plainWriter { Method := "GET", URLPath := "/items" }).w.calls =
      [Call.Write [104, 105], Call.WriteHeader 404] ∧
    committedStatus [Call.Write [104, 105], Call.WriteHeader 404] = some 200 := by
  refine ⟨by decide, by decide, by decide⟩

/-- C5: a handler that writes body bytes and then panics.  The panic is
caught, but `wroteHeader` is still false, so the recover block calls
`http.Error`: the underlying writer receives a `WriteHeader(500)` and a second
`Write` after the response was committed by the first `Write`, and the
counter is incremented with `status_code = "500"`. -/
theorem C5_error_written_after_body :
    (metricsStdMiddleware defaultConfig
        (Handler.Write [104, 105] (fun _ => Handler.panics "boom")) (0 : ℚ)
        noMetrics plainWriter { Method := "GET", URLPath := "/items" }).outcome =
      Outcome.returned ∧
    (metricsStdMiddleware defaultConfig
        (Handler.Write [104, 105] (fun _ => Handler.panics "boom")) (0 : ℚ)
        noMetrics plainWriter { Method := "GET", URLPath := "/items" }).w.calls =
      [Call.Write [104, 105], Call.WriteHeader 500,
       Call.Write (stringBytes "Internal Server Error\n")] ∧
    (metricsStdMiddleware defaultConfig
        (Handler.Write [104, 105] (fun _ => Handler.panics "boom")) (0 : ℚ)
        noMetrics plainWriter { Method := "GET", URLPath := "/items" }).metrics.httpRequestsTotal =
      [("GET", "/items", "500")] := by
  refine ⟨by decide, by decide, by decide⟩

/-- C7: when `e.Next()` panics the hook is left before `Dec()`: the gauge
stays one above its value before the connection, and the panic goes on to
the caller. -/
theorem C7_gauge_after_panicking_next (g : Int) (v : String) :
    realtimeConnectHook (NextResult.panicked v) g = (g + 1, NextResult.panicked v) ∧
    (realtimeConnectHook (NextResult.panicked v) g).1 ≠ g := by
  constructor
  · rfl
  · simp [realtimeConnectHook]

/-- C9: with count stats enabled the sampler is registered with the schedule
`* * * * *`, both when the configured schedule is `0 * * * *` and when it is
empty (defaulted to `*/5 * * * *`). -/
theorem C9_registered_schedule :
    ({ PBPrometheusConfig.zero with RecordCountCronSchedule := "0 * * * *" } :
        PBPrometheusConfig).SetDefaults.RecordCountCronSchedule = "0 * * * *" ∧
    (Setup SetupState.empty
        { PBPrometheusConfig.zero with RecordCountCronSchedule := "0 * * * *" }).cron =
      [{ jobId := "prometheus_record_stats", cronExpr := "* * * * *" }] ∧
    PBPrometheusConfig.zero.SetDefaults.RecordCountCronSchedule = "*/5 * * * *" ∧
    (Setup SetupState.empty PBPrometheusConfig.zero).cron =
      [{ jobId := "prometheus_record_stats", cronExpr := "* * * * *" }] := by
  refine ⟨by decide, by decide, by decide, by decide⟩

/-- C10: with the namespace configured as `myapp`, the four metrics of the
other components are registered under `myapp` and
`realtime_connections_active` under `pocketbase`. -/
theorem C10_registered_namespaces :
    ({ PBPrometheusConfig.zero with Namespace := "myapp" } :
        PBPrometheusConfig).SetDefaults.Namespace = "myapp" ∧
    (Setup SetupState.empty { PBPrometheusConfig.zero with Namespace := "myapp" }).reg.filterMap
        (fun x => (x.nameOf.bind fun n => x.namespaceOf.map fun ns => (ns, n))) =
      [("myapp", "request_duration_seconds"), ("myapp", "record_count"),
       ("myapp", "http_requests_total"), ("myapp", "http_request_duration_seconds"),
       ("pocketbase", "realtime_connections_active")] := by
  refine ⟨by decide, by decide⟩

end pbprometheus
